import Mathlib

/-!
# Verification of `igumus/go-objectstore-fs`

A shallow embedding of the filesystem-backed content-addressable object
store (`fsstore.go`, `helper.go`, configuration files) together with
theorems settling the specification claims.

Modelling conventions:
* byte sequences are `List Nat` (each element a byte value);
* machine 32-bit arithmetic of the SHA-256 digest is `Nat` arithmetic
  taken modulo `2^32`;
* the filesystem is a flat association list from paths to file contents,
  plus a list of `broken` paths on which `os.Stat` / `os.Open` /
  `os.Create` fail with an error other than `os.ErrNotExist`
  (e.g. permission denied);
* a Go `context.Context` is abstracted to the value of `ctx.Err()`,
  which is constant during one operation: `none`, canceled, or
  deadline-exceeded;
* each store operation additionally returns the list of filesystem
  accesses it performed, in order, so that claims about "no filesystem
  access" are statable.
-/

namespace FsStore

/-- Byte sequences (`[]byte` in Go) as lists of naturals. -/
abbrev Bytes := List Nat

/-- The sentinel error values of the store (`objectstore` library errors
plus the configuration errors). -/
inductive StoreErr where
  | objectNotExists
  | objectReadingFailed
  | objectWritingFailed
  | operationCancelled
  | operationDeadlineExceeded
  | bucketNotSpecified
  | dataDirNotSpecified
  deriving DecidableEq, Repr

/-- The two non-nil states of `ctx.Err()`. -/
inductive CtxErr where
  | canceled
  | deadlineExceeded
  deriving DecidableEq, Repr

/-- A Go context abstracted to the value of `ctx.Err()`. -/
abbrev Ctx := Option CtxErr

/-- `checkContextError` (fsstore.go): maps `context.Canceled` to
`ErrOperationCancelled` and `context.DeadlineExceeded` to
`ErrOperationDeadlineExceeded`, otherwise no error. -/
def checkContextError : Ctx → Option StoreErr
  | some CtxErr.canceled => some StoreErr.operationCancelled
  | some CtxErr.deadlineExceeded => some StoreErr.operationDeadlineExceeded
  | none => none

/-! ## SHA-256 (`crypto/sha256.Sum256`, used by `DigestObject`) -/

/-- Truncation to a 32-bit word. -/
def w32 (n : Nat) : Nat := n % 2 ^ 32

/-- 32-bit right-rotation. -/
def rotr (n x : Nat) : Nat := w32 ((x >>> n) ||| (x <<< (32 - n)))

/-- SHA-256 `Ch(x,y,z) = (x AND y) XOR (NOT x AND z)`. -/
def ch (x y z : Nat) : Nat := (x &&& y) ^^^ ((x ^^^ 0xffffffff) &&& z)

/-- SHA-256 `Maj(x,y,z) = (x AND y) XOR (x AND z) XOR (y AND z)`. -/
def maj (x y z : Nat) : Nat := (x &&& y) ^^^ (x &&& z) ^^^ (y &&& z)

/-- SHA-256 `Σ0`. -/
def bigSigma0 (x : Nat) : Nat := rotr 2 x ^^^ rotr 13 x ^^^ rotr 22 x

/-- SHA-256 `Σ1`. -/
def bigSigma1 (x : Nat) : Nat := rotr 6 x ^^^ rotr 11 x ^^^ rotr 25 x

/-- SHA-256 `σ0`. -/
def smallSigma0 (x : Nat) : Nat := rotr 7 x ^^^ rotr 18 x ^^^ (x >>> 3)

/-- SHA-256 `σ1`. -/
def smallSigma1 (x : Nat) : Nat := rotr 17 x ^^^ rotr 19 x ^^^ (x >>> 10)

/-- The 64 SHA-256 round constants (FIPS 180-4, written in decimal). -/
def kConsts : List Nat :=
  [1116352408, 1899447441, 3049323471, 3921009573,
   961987163, 1508970993, 2453635748, 2870763221,
   3624381080, 310598401, 607225278, 1426881987,
   1925078388, 2162078206, 2614888103, 3248222580,
   3835390401, 4022224774, 264347078, 604807628,
   770255983, 1249150122, 1555081692, 1996064986,
   2554220882, 2821834349, 2952996808, 3210313671,
   3336571891, 3584528711, 113926993, 338241895,
   666307205, 773529912, 1294757372, 1396182291,
   1695183700, 1986661051, 2177026350, 2456956037,
   2730485921, 2820302411, 3259730800, 3345764771,
   3516065817, 3600352804, 4094571909, 275423344,
   430227734, 506948616, 659060556, 883997877,
   958139571, 1322822218, 1537002063, 1747873779,
   1955562222, 2024104815, 2227730452, 2361852424,
   2428436474, 2756734187, 3204031479, 3329325298]

/-- The eight-word SHA-256 working state / chaining value. -/
structure H8 where
  a : Nat
  b : Nat
  c : Nat
  d : Nat
  e : Nat
  f : Nat
  g : Nat
  h : Nat
  deriving DecidableEq, Repr

/-- SHA-256 initial hash value (FIPS 180-4, written in decimal). -/
def h0 : H8 :=
  ⟨1779033703, 3144134277, 1013904242, 2773480762,
   1359893119, 2600822924, 528734635, 1541459225⟩

/-- One SHA-256 round on the working state with round constant `k`
and schedule word `w`. -/
def sha256Round (s : H8) (k w : Nat) : H8 :=
  let t1 := w32 (s.h + bigSigma1 s.e + ch s.e s.f s.g + k + w)
  let t2 := w32 (bigSigma0 s.a + maj s.a s.b s.c)
  ⟨w32 (t1 + t2), s.a, s.b, s.c, w32 (s.d + t1), s.e, s.f, s.g⟩

/-- Big-endian assembly of four bytes into a 32-bit word. -/
def bytesToWord (a b c d : Nat) : Nat := w32 (a * 2 ^ 24 + b * 2 ^ 16 + c * 2 ^ 8 + d)

/-- A 64-byte block as sixteen big-endian 32-bit words. -/
def block16 : Bytes → List Nat
  | a :: b :: c :: d :: rest => bytesToWord a b c d :: block16 rest
  | _ => []

/-- Message-schedule extension: appends `n` further schedule words. -/
def extendLoop : Nat → List Nat → List Nat
  | 0, w => w
  | n + 1, w =>
    let i := w.length
    extendLoop n (w ++ [w32 (smallSigma1 (w.getD (i - 2) 0) + w.getD (i - 7) 0 +
      smallSigma0 (w.getD (i - 15) 0) + w.getD (i - 16) 0)])

/-- Compression of one 64-byte block into the chaining value. -/
def compressBlock (s0 : H8) (block : Bytes) : H8 :=
  let ws := extendLoop 48 (block16 block)
  let s := (ws.zip kConsts).foldl (fun s p => sha256Round s p.1 p.2) s0
  ⟨w32 (s0.a + s.a), w32 (s0.b + s.b), w32 (s0.c + s.c), w32 (s0.d + s.d),
   w32 (s0.e + s.e), w32 (s0.f + s.f), w32 (s0.g + s.g), w32 (s0.h + s.h)⟩

/-- SHA-256 padding: a `0x80` byte, zero bytes up to 56 mod 64, then the
message bit length as eight big-endian bytes. -/
def pad (msg : Bytes) : Bytes :=
  let L := msg.length
  let zeros := (120 - (L + 1) % 64) % 64
  let bits := L * 8
  msg ++ [0x80] ++ List.replicate zeros 0 ++
    [bits / 2 ^ 56 % 256, bits / 2 ^ 48 % 256, bits / 2 ^ 40 % 256, bits / 2 ^ 32 % 256,
     bits / 2 ^ 24 % 256, bits / 2 ^ 16 % 256, bits / 2 ^ 8 % 256, bits % 256]

/-- Splits a byte sequence into 64-byte chunks. -/
def chunk64 : Bytes → List Bytes
  | [] => []
  | x :: xs => ((x :: xs).take 64) :: chunk64 ((x :: xs).drop 64)
termination_by l => l.length
decreasing_by simp [List.length_drop]; omega

/-- A 32-bit word as four big-endian bytes. -/
def wordBytes (w : Nat) : Bytes := [w / 2 ^ 24 % 256, w / 2 ^ 16 % 256, w / 2 ^ 8 % 256, w % 256]

/-- The final chaining value rendered as 32 bytes. -/
def h8Bytes (s : H8) : Bytes :=
  wordBytes s.a ++ wordBytes s.b ++ wordBytes s.c ++ wordBytes s.d ++
    wordBytes s.e ++ wordBytes s.f ++ wordBytes s.g ++ wordBytes s.h

/-- `sha256.Sum256`: the 32-byte SHA-256 digest of a message. -/
def sum256 (msg : Bytes) : Bytes :=
  h8Bytes ((chunk64 (pad msg)).foldl compressBlock h0)

/-- The sixteen lowercase hexadecimal digit characters (Go's digit
table `const hex = "0123456789abcdef"`). -/
def hexChars : List Char := "0123456789abcdef".data

/-- A single hexadecimal digit character. -/
def hexDigit (n : Nat) : Char := hexChars.getD (n % 16) '0'

/-- `fmt.Sprintf("%x", ·)` on one byte: exactly two hex digits. -/
def hexByteChars (b : Nat) : List Char := [hexDigit (b / 16), hexDigit (b % 16)]

/-- `fmt.Sprintf("%x", ·)` on a byte slice: two lowercase hex digits per
byte. -/
def toHexString (bs : Bytes) : String := String.mk (bs.flatMap hexByteChars)

/-- `DigestObject` (fsstore.go): the SHA-256 sum of the data rendered as
a lowercase hexadecimal string. It ignores the context. -/
def digestObject (data : Bytes) : String := toHexString (sum256 data)

/-! ## Configuration (`config.go` of the repository, `fsstore.go`) -/

/-- `fsObjectStoreConfig`. The fields `dir`, `bucket` and `debug` are
from the configuration source; the field `seperatorLength` (the
shard-prefix length read by `ToObjectLink`) is declared in a
configuration file absent from the sources. Modelled from the spec:
the store configuration carries a non-negative shard-prefix length. -/
structure FsObjectStoreConfig where
  dir : String
  bucket : String
  seperatorLength : Nat
  debug : Bool
  deriving DecidableEq, Repr

/-- `strings.TrimSpace`: removes leading and trailing whitespace. -/
def trimSpace (s : String) : String :=
  String.mk (((s.data.dropWhile Char.isWhitespace).reverse.dropWhile Char.isWhitespace).reverse)

/-- `defaultFSObjectstoreConfig`: bucket defaults to `"store"`, data
directory to `"/data"`, debug off. Modelled from the spec: the
shard-prefix length default is 0 (no sharding). -/
def defaultFSObjectstoreConfig : FsObjectStoreConfig :=
  { dir := "/data", bucket := "store", seperatorLength := 0, debug := false }

/-- A functional configuration option (`FSObjectstoreConfigOption`);
Go mutates the record, modelled as an endofunction. -/
abbrev FSObjectstoreConfigOption := FsObjectStoreConfig → FsObjectStoreConfig

/-- `WithBucket`: sets the bucket to the whitespace-trimmed argument. -/
def withBucket (cd : String) : FSObjectstoreConfigOption :=
  fun cfg => { cfg with bucket := trimSpace cd }

/-- `WithDataDir`: sets the data directory to the whitespace-trimmed
argument. -/
def withDataDir (d : String) : FSObjectstoreConfigOption :=
  fun cfg => { cfg with dir := trimSpace d }

/-- `WithDebugMode`: sets the debug flag. -/
def withDebugMode (dm : Bool) : FSObjectstoreConfigOption :=
  fun cfg => { cfg with debug := dm }

/-- `fsObjectStoreConfig.validate`: empty data directory first, then
empty bucket name. -/
def validate (cfg : FsObjectStoreConfig) : Option StoreErr :=
  if cfg.dir.length = 0 then some StoreErr.dataDirNotSpecified
  else if cfg.bucket.length = 0 then some StoreErr.bucketNotSpecified
  else none

/-- Result of `NewFileSystemObjectStore`. -/
inductive NewStoreResult where
  | ok (cfg : FsObjectStoreConfig)
  | fail (e : StoreErr)
  deriving DecidableEq, Repr

/-- `NewFileSystemObjectStore` (fsstore.go): applies the options to the
default configuration, validates once, and returns the service (whose
only state is the validated configuration). -/
def newFileSystemObjectStore (opts : List FSObjectstoreConfigOption) : NewStoreResult :=
  let cfg := opts.foldl (fun c o => o c) defaultFSObjectstoreConfig
  match validate cfg with
  | some e => NewStoreResult.fail e
  | none => NewStoreResult.ok cfg

/-! ## The filesystem model -/

/-- A filesystem access performed by an operation. -/
inductive FSOp where
  | statOp (path : String)
  | openOp (path : String)
  | createOp (path : String)
  deriving DecidableEq, Repr

/-- Association-list lookup of a path. -/
def lookupPath (p : String) : List (String × Bytes) → Option Bytes
  | [] => none
  | (q, c) :: rest => if q = p then some c else lookupPath p rest

/-- Filesystem state: regular files with their contents, and paths on
which every syscall fails with an error other than `os.ErrNotExist`. -/
structure FS where
  files : List (String × Bytes)
  broken : List String
  deriving DecidableEq, Repr

/-- Outcome of `os.Stat`. -/
inductive StatRes where
  | ok
  | notExist
  | otherErr
  deriving DecidableEq, Repr

/-- `os.Stat` on the modelled filesystem. -/
def FS.stat (fs : FS) (p : String) : StatRes :=
  if p ∈ fs.broken then StatRes.otherErr
  else match lookupPath p fs.files with
    | some _ => StatRes.ok
    | none => StatRes.notExist

/-- `!errors.Is(err, os.ErrNotExist)` applied to a stat outcome: false
exactly on "not exists". -/
def notErrNotExist : StatRes → Bool
  | StatRes.notExist => false
  | _ => true

/-! ## The object-store engine (`fsstore.go`) -/

/-- `_objFormat` applied by `ToObjectLink`. Modelled from the spec: the
format constant is declared in a configuration file absent from the
sources; the spec gives the layout
`<baseDir>/<bucket>/<shardPrefix>/<shardRest>/<name>`. -/
def objFormat (dir bucket parentFolder childFolder name : String) : String :=
  dir ++ "/" ++ bucket ++ "/" ++ parentFolder ++ "/" ++ childFolder ++ "/" ++ name

/-- `ToObjectLink` (fsstore.go): splits the cid at the configured
separator length into a parent directory segment and a child segment
and formats the link. (Total model of the Go slicing; the partiality
of `cid[:sepLen]` / `cid[sepLen:]` is modelled by `toObjectLinkChecked`.) -/
def toObjectLink (cfg : FsObjectStoreConfig) (cid name : String) : String :=
  let sepLen := cfg.seperatorLength
  let parentFolder := String.mk (cid.data.take sepLen)
  let childFolder := String.mk (cid.data.drop sepLen)
  objFormat cfg.dir cfg.bucket parentFolder childFolder name

/-- Go string slicing `s[lo:hi]`: defined only for `lo ≤ hi ≤ len(s)`
(otherwise the program panics), modelled as `Option`. -/
def goSlice (s : String) (lo hi : Nat) : Option String :=
  if lo ≤ hi ∧ hi ≤ s.length then some (String.mk ((s.data.drop lo).take (hi - lo)))
  else none

/-- `ToObjectLink` with the partiality of the Go slice expressions
`cid[:sepLen]` and `cid[sepLen:]` made explicit. -/
def toObjectLinkChecked (cfg : FsObjectStoreConfig) (cid name : String) : Option String :=
  (goSlice cid 0 cfg.seperatorLength).bind fun parentFolder =>
    (goSlice cid cfg.seperatorLength cid.length).map fun childFolder =>
      objFormat cfg.dir cfg.bucket parentFolder childFolder name

/-- `HasObject` (fsstore.go): stats the object link and returns
`!errors.Is(err, os.ErrNotExist)`. -/
def hasObject (cfg : FsObjectStoreConfig) (fs : FS) (cid : String) : Bool :=
  notErrNotExist (fs.stat (toObjectLink cfg cid cid))

/-- The filesystem accesses performed by one `HasObject` call. -/
def hasObjectLog (cfg : FsObjectStoreConfig) (cid : String) : List FSOp :=
  [FSOp.statOp (toObjectLink cfg cid cid)]

/-- Outcome of `ReadObject`. -/
inductive ReadRes where
  | ok (data : Bytes)
  | fail (e : StoreErr)
  deriving DecidableEq, Repr

/-- Result of `ReadObject` together with its filesystem access trace. -/
structure ReadResult where
  result : ReadRes
  log : List FSOp
  deriving DecidableEq, Repr

/-- `os.Open` followed by `ReadFrom` (both failure modes surface as
`ErrObjectReadingFailed`). -/
def openAndRead (fs : FS) (objLink : String) : ReadRes :=
  if objLink ∈ fs.broken then ReadRes.fail StoreErr.objectReadingFailed
  else match lookupPath objLink fs.files with
    | some c => ReadRes.ok c
    | none => ReadRes.fail StoreErr.objectReadingFailed

/-- `ReadObject` (fsstore.go): existence check first (`ObjectNotExists`
when absent), then the context check, then open and read. -/
def readObject (cfg : FsObjectStoreConfig) (ctx : Ctx) (fs : FS) (cid : String) : ReadResult :=
  let objLink := toObjectLink cfg cid cid
  if hasObject cfg fs cid then
    match checkContextError ctx with
    | some e => { result := ReadRes.fail e, log := hasObjectLog cfg cid }
    | none => { result := openAndRead fs objLink, log := hasObjectLog cfg cid ++ [FSOp.openOp objLink] }
  else
    { result := ReadRes.fail StoreErr.objectNotExists, log := hasObjectLog cfg cid }

/-- Result of `CreateObject`: the cid, the error slot, the filesystem
after the call and the access trace. -/
structure CreateResult where
  cid : String
  err : Option StoreErr
  fs : FS
  log : List FSOp
  deriving DecidableEq, Repr

/-- `CreateObject` (fsstore.go): computes the cid, checks the context,
checks `HasObject`; writes the file only when absent (the `MkdirAll`
error is discarded by the source; `os.Create` on an existing path is
unreachable here because a present file makes `HasObject` true). -/
def createObject (cfg : FsObjectStoreConfig) (ctx : Ctx) (fs : FS) (data : Bytes) : CreateResult :=
  let cid := digestObject data
  match checkContextError ctx with
  | some e => { cid := cid, err := some e, fs := fs, log := [] }
  | none =>
    let objLink := toObjectLink cfg cid cid
    if hasObject cfg fs cid then
      { cid := cid, err := none, fs := fs, log := hasObjectLog cfg cid }
    else if objLink ∈ fs.broken then
      { cid := cid, err := some StoreErr.objectWritingFailed, fs := fs,
        log := hasObjectLog cfg cid ++ [FSOp.createOp objLink] }
    else
      { cid := cid, err := none, fs := { fs with files := (objLink, data) :: fs.files },
        log := hasObjectLog cfg cid ++ [FSOp.createOp objLink] }

/-! ## Enumeration (`ListObject`) -/

/-- One node of the depth-first visit sequence that `filepath.Walk`
(Go standard library) produces for the bucket tree: its base name and
whether `info.Mode().IsRegular()` holds. -/
structure Node where
  name : String
  isRegular : Bool
  deriving DecidableEq, Repr

/-- `ListObject` (walk callback): for each visited path, aborts with the
context's error if the context is done, otherwise emits the base name
of every regular file; the first component models the identifiers sent
on the data channel before both channels are closed, the second the
single value sent on the error channel (`none` = closed without
emission). -/
def listObject (ctx : Ctx) : List Node → List String × Option CtxErr
  | [] => ([], none)
  | n :: rest =>
    match ctx with
    | some e => ([], some e)
    | none =>
      let r := listObject ctx rest
      (if n.isRegular then n.name :: r.1 else r.1, r.2)

/-- The spec-side enumeration contract: one identifier per regular file
of the visit sequence, directory names omitted. -/
def regularNames (visits : List Node) : List String :=
  (visits.filter (fun n => n.isRegular)).map (fun n => n.name)

/-- The `StoreErr` a non-nil context error is mapped to. -/
def ctxStoreErr : CtxErr → StoreErr
  | CtxErr.canceled => StoreErr.operationCancelled
  | CtxErr.deadlineExceeded => StoreErr.operationDeadlineExceeded

/-- A concrete configuration for witnesses: default directory and
bucket, shard-prefix length 2. -/
def cfgW : FsObjectStoreConfig := ⟨"/data", "store", 2, false⟩

/-- The empty filesystem. -/
def fs0 : FS := ⟨[], []⟩

/-- A filesystem holding one object at the link of cid `"aa11"`. -/
def fsW : FS := ⟨[(toObjectLink cfgW "aa11" "aa11", [1])], []⟩

/-- The depth-first visit sequence `filepath.Walk` produces for a bucket
holding the objects with CIDs `"aa11"` and `"bb22"` under shard-prefix
length 2 (root and shard directories are visited but not regular). -/
def bucketVisits : List Node :=
  [⟨"store", false⟩, ⟨"aa", false⟩, ⟨"11", false⟩, ⟨"aa11", true⟩,
   ⟨"bb", false⟩, ⟨"22", false⟩, ⟨"bb22", true⟩]

/-! ## Helper lemmas -/

/-- Strings with equal character data are equal. -/
theorem string_eq_of_data_eq (s t : String) (h : s.data = t.data) : s = t := by
  cases s; cases t; simp_all

/-- The SHA-256 digest is 32 bytes long for every message. -/
theorem sum256_length (msg : Bytes) : (sum256 msg).length = 32 := by
  simp [sum256, h8Bytes, wordBytes]

/-- Hex rendering produces two characters per byte. -/
theorem length_flatMap_hexByteChars (bs : Bytes) :
    (bs.flatMap hexByteChars).length = 2 * bs.length := by
  induction bs with
  | nil => simp
  | cons b rest ih => simp [hexByteChars, ih]; omega

/-- Every cid produced by `DigestObject` has 64 characters. -/
theorem digestObject_length (data : Bytes) : (digestObject data).length = 64 := by
  have h1 := sum256_length data
  have h2 := length_flatMap_hexByteChars (sum256 data)
  simp only [digestObject, toHexString]
  show ((sum256 data).flatMap hexByteChars).length = 64
  omega

/-- Every rendered digit is one of the sixteen hex characters. -/
theorem hexDigit_mem (n : Nat) : hexDigit n ∈ hexChars := by
  have hlt : n % 16 < 16 := Nat.mod_lt _ (by omega)
  have h16 : hexChars.length = 16 := rfl
  rw [hexDigit, List.getD_eq_getElem hexChars '0' (by omega)]
  exact List.getElem_mem _

/-- Every character of a cid produced by `DigestObject` is a lowercase
hexadecimal digit. -/
theorem digestObject_hex (data : Bytes) :
    ((digestObject data).data.all (fun c => hexChars.contains c)) = true := by
  rw [List.all_eq_true]
  intro c hc
  have hc' : c ∈ (sum256 data).flatMap hexByteChars := hc
  rw [List.mem_flatMap] at hc'
  obtain ⟨b, _, hcb⟩ := hc'
  simp only [hexByteChars, List.mem_cons, List.mem_singleton] at hcb
  have hmem : c ∈ hexChars := by
    rcases hcb with h | h | h
    · exact h ▸ hexDigit_mem _
    · exact h ▸ hexDigit_mem _
    · cases h
  simpa using hmem

/-- Operations surface no configuration error: `ReadObject` can fail
only with not-exists, a context error or a read failure. -/
theorem readObject_no_config_error (cfg : FsObjectStoreConfig) (ctx : Ctx) (fs : FS) (cid : String) :
    (readObject cfg ctx fs cid).result ≠ ReadRes.fail StoreErr.bucketNotSpecified ∧
    (readObject cfg ctx fs cid).result ≠ ReadRes.fail StoreErr.dataDirNotSpecified := by
  by_cases h : hasObject cfg fs cid
  · rcases ctx with _ | e
    · by_cases hb : toObjectLink cfg cid cid ∈ fs.broken
      · simp [readObject, h, checkContextError, openAndRead, hb]
      · cases hl : lookupPath (toObjectLink cfg cid cid) fs.files <;>
          simp [readObject, h, checkContextError, openAndRead, hb, hl]
    · cases e <;> simp [readObject, h, checkContextError]
  · simp [readObject, h]

/-- Operations surface no configuration error: `CreateObject` can fail
only with a context error or a write failure. -/
theorem createObject_no_config_error (cfg : FsObjectStoreConfig) (ctx : Ctx) (fs : FS) (data : Bytes) :
    (createObject cfg ctx fs data).err ≠ some StoreErr.bucketNotSpecified ∧
    (createObject cfg ctx fs data).err ≠ some StoreErr.dataDirNotSpecified := by
  rcases ctx with _ | e
  · simp only [createObject, checkContextError]
    split_ifs <;> simp
  · cases e <;> simp [createObject, checkContextError]

/-! ## Claims -/

/-- Claim C1: round-trip. If `CreateObject(ctx, b)` succeeds under a
non-cancelled context returning `cid`, then `ReadObject(ctx, cid)` under
a non-cancelled context succeeds and returns exactly `b`, with no
decoding or transformation. The hypotheses state that the filesystem is
functioning at the object's link (no stat/open failure other than
not-found there) and that no different blob already sits at that link
(in reality a SHA-256 collision). -/
theorem createObject_readObject_roundtrip (cfg : FsObjectStoreConfig) (fs : FS) (b : Bytes)
    (hbrk : toObjectLink cfg (digestObject b) (digestObject b) ∉ fs.broken)
    (hcnt : ∀ c, lookupPath (toObjectLink cfg (digestObject b) (digestObject b)) fs.files = some c → c = b) :
    (createObject cfg none fs b).err = none ∧
    (readObject cfg none (createObject cfg none fs b).fs (createObject cfg none fs b).cid).result =
      ReadRes.ok b := by
  cases hc : lookupPath (toObjectLink cfg (digestObject b) (digestObject b)) fs.files with
  | some c =>
    have hcb := hcnt c hc
    subst hcb
    simp [createObject, checkContextError, hasObject, FS.stat, notErrNotExist, readObject,
      openAndRead, hc, hbrk, hasObjectLog]
  | none =>
    simp [createObject, checkContextError, hasObject, FS.stat, notErrNotExist, readObject,
      openAndRead, hc, hbrk, hasObjectLog, lookupPath]

/-- Claim C1 witness: the round-trip at the empty filesystem for the
bytes `[104, 105]`. -/
theorem createObject_readObject_roundtrip_witness :
    toObjectLink cfgW (digestObject [104, 105]) (digestObject [104, 105]) ∉ fs0.broken ∧
    (createObject cfgW none fs0 [104, 105]).err = none ∧
    (readObject cfgW none (createObject cfgW none fs0 [104, 105]).fs
      (createObject cfgW none fs0 [104, 105]).cid).result = ReadRes.ok [104, 105] := by
  have h := createObject_readObject_roundtrip cfgW fs0 [104, 105] (by simp [fs0])
    (by intro c hc; simp [fs0, lookupPath] at hc)
  exact ⟨by simp [fs0], h.1, h.2⟩

/-- Claim C2: idempotence. Creating the same bytes `b` twice on a fresh
store returns the same CID both times and succeeds both times; the
second call observes `HasObject` true, performs no write (its only
filesystem access is the stat, and the filesystem is unchanged), and
exactly one file is on disk, holding `b`. -/
theorem createObject_idempotent (cfg : FsObjectStoreConfig) (b : Bytes) :
    (createObject cfg none ⟨[], []⟩ b).err = none ∧
    (createObject cfg none (createObject cfg none ⟨[], []⟩ b).fs b).cid =
      (createObject cfg none ⟨[], []⟩ b).cid ∧
    (createObject cfg none (createObject cfg none ⟨[], []⟩ b).fs b).err = none ∧
    (createObject cfg none (createObject cfg none ⟨[], []⟩ b).fs b).fs =
      (createObject cfg none ⟨[], []⟩ b).fs ∧
    hasObject cfg (createObject cfg none ⟨[], []⟩ b).fs (digestObject b) = true ∧
    (createObject cfg none (createObject cfg none ⟨[], []⟩ b).fs b).log =
      [FSOp.statOp (toObjectLink cfg (digestObject b) (digestObject b))] ∧
    (createObject cfg none ⟨[], []⟩ b).fs.files =
      [(toObjectLink cfg (digestObject b) (digestObject b), b)] := by
  have h1 : createObject cfg none ⟨[], []⟩ b =
      { cid := digestObject b, err := none,
        fs := ⟨[(toObjectLink cfg (digestObject b) (digestObject b), b)], []⟩,
        log := [FSOp.statOp (toObjectLink cfg (digestObject b) (digestObject b)),
                FSOp.createOp (toObjectLink cfg (digestObject b) (digestObject b))] } := by
    simp [createObject, checkContextError, hasObject, FS.stat, lookupPath, notErrNotExist,
      hasObjectLog]
  have h2 : hasObject cfg ⟨[(toObjectLink cfg (digestObject b) (digestObject b), b)], []⟩
      (digestObject b) = true := by
    simp [hasObject, FS.stat, lookupPath, notErrNotExist]
  rw [h1]
  simp [createObject, checkContextError, h2, hasObjectLog]

/-- Claim C3 counterexample: at a link whose stat fails with an error
other than not-found (e.g. permission denied), `HasObject` returns
`true`, not `false` as the claim states. -/
theorem hasObject_statFailure_counterexample :
    FS.stat ⟨[], ["/data/store/aa/11/aa11"]⟩ (toObjectLink cfgW "aa11" "aa11") = StatRes.otherErr ∧
    hasObject cfgW ⟨[], ["/data/store/aa/11/aa11"]⟩ "aa11" = true := by decide

/-- Claim C3 (amended): `HasObject` is total, but a stat failure other
than not-found makes it report the object as PRESENT (true), because it
returns `!errors.Is(err, os.ErrNotExist)`. -/
theorem hasObject_statFailure_reports_present (cfg : FsObjectStoreConfig) (fs : FS) (cid : String)
    (h : FS.stat fs (toObjectLink cfg cid cid) = StatRes.otherErr) :
    hasObject cfg fs cid = true := by
  simp [hasObject, h, notErrNotExist]

/-- Claim C3 witness: a broken link makes `HasObject` answer true. -/
theorem hasObject_statFailure_reports_present_witness :
    FS.stat ⟨[], [toObjectLink cfgW "bb22" "bb22"]⟩ (toObjectLink cfgW "bb22" "bb22") = StatRes.otherErr ∧
    hasObject cfgW ⟨[], [toObjectLink cfgW "bb22" "bb22"]⟩ "bb22" = true := by
  have h : FS.stat ⟨[], [toObjectLink cfgW "bb22" "bb22"]⟩ (toObjectLink cfgW "bb22" "bb22") =
      StatRes.otherErr := by
    simp [FS.stat]
  exact ⟨h, hasObject_statFailure_reports_present cfgW _ "bb22" h⟩

/-- Claim C4 counterexample: with the context already cancelled and the
object absent, `ReadObject` fails with `ObjectNotExists`, not
`OperationCancelled`, and its access log is non-empty (the existence
stat ran before the context check). -/
theorem readObject_cancelled_counterexample :
    (readObject cfgW (some CtxErr.canceled) fs0 "aa11").result = ReadRes.fail StoreErr.objectNotExists ∧
    (readObject cfgW (some CtxErr.canceled) fs0 "aa11").result ≠ ReadRes.fail StoreErr.operationCancelled ∧
    (readObject cfgW (some CtxErr.canceled) fs0 "aa11").log ≠ [] := by decide

/-- Claim C4 (amended): if the context is already cancelled (resp. past
its deadline) and the object exists, `ReadObject` fails with
`OperationCancelled` (resp. `OperationDeadlineExceeded`); the existence
stat is performed before that check, and the file is never opened. -/
theorem readObject_cancelled_after_stat (cfg : FsObjectStoreConfig) (fs : FS) (cid : String)
    (e : CtxErr) (h : hasObject cfg fs cid = true) :
    (readObject cfg (some e) fs cid).result = ReadRes.fail (ctxStoreErr e) ∧
    (readObject cfg (some e) fs cid).log = [FSOp.statOp (toObjectLink cfg cid cid)] := by
  cases e <;> simp [readObject, h, checkContextError, ctxStoreErr, hasObjectLog]

/-- Claim C4 witness: a cancelled read of an existing object. -/
theorem readObject_cancelled_after_stat_witness :
    hasObject cfgW fsW "aa11" = true ∧
    (readObject cfgW (some CtxErr.canceled) fsW "aa11").result =
      ReadRes.fail StoreErr.operationCancelled := by
  have h : hasObject cfgW fsW "aa11" = true := by
    simp [hasObject, fsW, FS.stat, lookupPath, notErrNotExist]
  exact ⟨h, (readObject_cancelled_after_stat cfgW fsW "aa11" CtxErr.canceled h).1⟩

/-- Claim C5: for a fixed configuration the object-link resolver is
deterministic (it is a pure function of the cid) and injective: two
cids of length at least the shard-prefix length that resolve to the
same link are equal. -/
theorem toObjectLink_injective (cfg : FsObjectStoreConfig) (c1 c2 : String)
    (h1 : cfg.seperatorLength ≤ c1.length) (h2 : cfg.seperatorLength ≤ c2.length)
    (heq : toObjectLink cfg c1 c1 = toObjectLink cfg c2 c2) : c1 = c2 := by
  have hl1 : c1.length = c1.data.length := rfl
  have hl2 : c2.length = c2.data.length := rfl
  have hd : (toObjectLink cfg c1 c1).data = (toObjectLink cfg c2 c2).data := by rw [heq]
  have hmk : ∀ l : List Char, (String.mk l).data = l := fun _ => rfl
  simp only [toObjectLink, objFormat, String.data_append, hmk, List.append_assoc] at hd
  have e1 := List.append_cancel_left hd
  have e2 := List.append_cancel_left e1
  have e3 := List.append_cancel_left e2
  have e4 := List.append_cancel_left e3
  have htake : (List.take cfg.seperatorLength c1.data).length =
      (List.take cfg.seperatorLength c2.data).length := by
    simp only [List.length_take]
    omega
  obtain ⟨ht, rest⟩ := List.append_inj e4 htake
  have e5 := List.append_cancel_left rest
  have hlen : c1.data.length = c2.data.length := by
    have hc := congrArg List.length e5
    simp only [List.length_append, List.length_drop] at hc
    omega
  have hdrop : (List.drop cfg.seperatorLength c1.data).length =
      (List.drop cfg.seperatorLength c2.data).length := by
    simp [List.length_drop, hlen]
  obtain ⟨hd2, rest2⟩ := List.append_inj e5 hdrop
  exact string_eq_of_data_eq c1 c2 (List.append_cancel_left rest2)

/-- Claim C5 witness: the resolver applied at the cid `"aa11"` with
shard-prefix length 2. -/
theorem toObjectLink_injective_witness :
    (2 : Nat) ≤ ("aa11" : String).length ∧ "aa11" = "aa11" := by
  refine ⟨by decide, ?_⟩
  exact toObjectLink_injective ⟨"/data", "store", 2, false⟩ "aa11" "aa11" (by decide) (by decide) rfl

/-- Claim C6: `CreateObject` computes the CID first, then checks the
context, then checks `HasObject`: a cancelled or expired context makes
it return the already-computed CID with the corresponding error, an
unchanged filesystem and an empty access log; under a live context its
first filesystem access is the `HasObject` stat. -/
theorem createObject_digest_ctx_hasObject_order (cfg : FsObjectStoreConfig) (fs : FS)
    (data : Bytes) (e : CtxErr) :
    createObject cfg (some e) fs data =
      { cid := digestObject data, err := some (ctxStoreErr e), fs := fs, log := [] } ∧
    (createObject cfg none fs data).log.head? =
      some (FSOp.statOp (toObjectLink cfg (digestObject data) (digestObject data))) := by
  constructor
  · cases e <;> rfl
  · simp only [createObject, checkContextError, hasObjectLog]
    split_ifs <;> simp

/-- Claim C7: whenever `HasObject` is false, `ReadObject` fails with
`ObjectNotExists`, whatever the context's cancellation state. -/
theorem readObject_absent_objectNotFound (cfg : FsObjectStoreConfig) (ctx : Ctx) (fs : FS)
    (cid : String) (h : hasObject cfg fs cid = false) :
    (readObject cfg ctx fs cid).result = ReadRes.fail StoreErr.objectNotExists := by
  simp [readObject, h]

/-- Claim C7 witness: reading an unknown cid under a cancelled context
still reports not-found. -/
theorem readObject_absent_objectNotFound_witness :
    hasObject cfgW fs0 "aa11" = false ∧
    (readObject cfgW (some CtxErr.canceled) fs0 "aa11").result =
      ReadRes.fail StoreErr.objectNotExists := by
  have h : hasObject cfgW fs0 "aa11" = false := by decide
  exact ⟨h, readObject_absent_objectNotFound cfgW (some CtxErr.canceled) fs0 "aa11" h⟩

/-- Claim C8: under a non-cancelled context and an error-free walk,
`ListObject` emits exactly one identifier per regular file of the visit
sequence — for the bucket holding `"aa11"` and `"bb22"` exactly those
two identifiers, never shard-directory names — and terminates with the
error channel closed without emission (`none`). -/
theorem listObject_regular_files_clean_close :
    (∀ visits : List Node, listObject none visits = (regularNames visits, none)) ∧
    listObject none bucketVisits = (["aa11", "bb22"], none) := by
  have h : ∀ visits : List Node, listObject none visits = (regularNames visits, none) := by
    intro visits
    induction visits with
    | nil => rfl
    | cons n rest ih =>
      simp [listObject, regularNames, List.filter_cons] at *
      cases hreg : n.isRegular <;> simp [hreg, ih]
  exact ⟨h, by rw [h]; rfl⟩

/-- Claim C9: construction with a bucket name empty after trimming
fails with `BucketNotSpecified`, with a base directory empty after
trimming fails with `DataDirectoryNotSpecified`, and this validation
never surfaces as a per-operation failure: no read or create ever
returns either configuration error. -/
theorem construction_validation (b d : String)
    (hb : trimSpace b = "") (hd : trimSpace d = "") :
    newFileSystemObjectStore [withBucket b] = NewStoreResult.fail StoreErr.bucketNotSpecified ∧
    newFileSystemObjectStore [withDataDir d] = NewStoreResult.fail StoreErr.dataDirNotSpecified ∧
    (∀ cfg ctx fs cid, (readObject cfg ctx fs cid).result ≠ ReadRes.fail StoreErr.bucketNotSpecified ∧
        (readObject cfg ctx fs cid).result ≠ ReadRes.fail StoreErr.dataDirNotSpecified) ∧
    (∀ cfg ctx fs data, (createObject cfg ctx fs data).err ≠ some StoreErr.bucketNotSpecified ∧
        (createObject cfg ctx fs data).err ≠ some StoreErr.dataDirNotSpecified) := by
  have h5 : ("/data" : String).length = 5 := rfl
  refine ⟨?_, ?_, fun cfg ctx fs cid => readObject_no_config_error cfg ctx fs cid,
    fun cfg ctx fs data => createObject_no_config_error cfg ctx fs data⟩
  · simp [newFileSystemObjectStore, withBucket, defaultFSObjectstoreConfig, validate, hb, h5]
  · simp [newFileSystemObjectStore, withDataDir, defaultFSObjectstoreConfig, validate, hd]

/-- Claim C9 witness: a whitespace bucket name and an empty data
directory. -/
theorem construction_validation_witness :
    trimSpace "  " = "" ∧ trimSpace "" = "" ∧
    newFileSystemObjectStore [withBucket "  "] = NewStoreResult.fail StoreErr.bucketNotSpecified ∧
    newFileSystemObjectStore [withDataDir ""] = NewStoreResult.fail StoreErr.dataDirNotSpecified := by
  have h := construction_validation "  " "" (by decide) (by decide)
  exact ⟨by decide, by decide, h.1, h.2.1⟩

/-- Claim C10: the object-link resolver is defined exactly when the
cid's length is at least the shard-prefix length (the Go slices
`cid[:sepLen]` and `cid[sepLen:]` are out of bounds otherwise), and
every CID produced by `DigestObject` is a 64-character lowercase
hexadecimal string, hence in bounds whenever the shard-prefix length is
at most 64. -/
theorem toObjectLink_definedness_digest (cfg : FsObjectStoreConfig) (cid nm : String)
    (data : Bytes) :
    ((toObjectLinkChecked cfg cid nm).isSome ↔ cfg.seperatorLength ≤ cid.length) ∧
    (digestObject data).length = 64 ∧
    ((digestObject data).data.all (fun c => hexChars.contains c)) = true ∧
    ((toObjectLinkChecked cfg (digestObject data) nm).isSome ↔ cfg.seperatorLength ≤ 64) := by
  have hiff : ∀ c : String, (toObjectLinkChecked cfg c nm).isSome ↔ cfg.seperatorLength ≤ c.length := by
    intro c
    simp only [toObjectLinkChecked, goSlice]
    split_ifs with hA hB hB <;> simp <;> omega
  refine ⟨hiff cid, digestObject_length data, digestObject_hex data, ?_⟩
  rw [hiff (digestObject data), digestObject_length data]

end FsStore
